import Mathlib

/-
Verification of the Amadeus travel-tool clients of this repository
(src/amadeus_tool.py): the OAuth2 token fetch `_get_amadeus_token`, the
flight client `search_amadeus_flights`, and the two-step hotel client
`search_amadeus_hotels`.

The Python code is shallowly embedded as follows.

* Python runtime values (the JSON payloads, query-parameter values and the
  return values of the tools) are `PyVal`.
* Python exceptions that the code can raise or catch are `PyExn`;
  code that may raise returns `Except PyExn _`.
* The network is an oracle `net : Nat → NetResult` giving, for the n-th
  outbound HTTP call attempted by one tool invocation, either a transport
  failure (a `requests.RequestException` with no attached response) or an
  `HttpResponse` (status, raw text, and the result of `.json()`, where
  `Option.none` models `.json()` raising `ValueError`; the embedding
  follows the `requests` behaviour in which a JSON-decoding failure is a
  `ValueError` and not a `RequestException`).
* Each client returns its Python result (or an uncaught exception)
  together with the ordered list of HTTP requests it actually issued, so
  that claims about "number of outbound network calls" are about that
  trace.

`requests.Response.raise_for_status` raises exactly when the status code
is at least 400, and the truthiness of a `Response` object (used by the
hotel client in `getattr(e, "response", None) ... if ... else str(e)`) is
its `ok` flag, i.e. status < 400, so for an HTTP error the hotel error
details fall back to the stringified exception.
-/

set_option maxRecDepth 20000

namespace Amadeus

/-- Python runtime values: `None`, booleans, integers, strings, lists and
(insertion-ordered) dicts.  This covers every value the embedded code
builds or receives. -/
inductive PyVal where
  | none : PyVal
  | bool : Bool → PyVal
  | int : Int → PyVal
  | str : String → PyVal
  | list : List PyVal → PyVal
  | dict : List (String × PyVal) → PyVal

/-- Python exceptions relevant to `amadeus_tool.py`: `ValueError` (raised
by `.json()` on a non-JSON body), `KeyError`, `TypeError` (raised e.g. by
`"Error" in None` or by iterating a non-iterable), and `AttributeError`
(raised by calling `.get` on a non-dict).  The payload is `str(e)`. -/
inductive PyExn where
  | valueError (msg : String)
  | keyError (msg : String)
  | typeError (msg : String)
  | attributeError (msg : String)
deriving DecidableEq

/-- Python `str(e)` for an exception: its message. -/
def exnText : PyExn → String
  | PyExn.valueError m => m
  | PyExn.keyError m => m
  | PyExn.typeError m => m
  | PyExn.attributeError m => m

/-- Python type name of a value, as used in exception messages. -/
def pyTypeName : PyVal → String
  | PyVal.none => "NoneType"
  | PyVal.bool _ => "bool"
  | PyVal.int _ => "int"
  | PyVal.str _ => "str"
  | PyVal.list _ => "list"
  | PyVal.dict _ => "dict"

/-- Python truthiness of a value (`if v:`). -/
def pyTruthy : PyVal → Bool
  | PyVal.none => false
  | PyVal.bool b => b
  | PyVal.int n => n != 0
  | PyVal.str s => s != ""
  | PyVal.list xs => !xs.isEmpty
  | PyVal.dict fs => !fs.isEmpty

/-- Python truthiness of an `os.getenv` result (`None` or a string). -/
def envTruthy : Option String → Bool
  | Option.none => false
  | Option.some s => s != ""

/-- Python `d.get(k)` (default `None`): `AttributeError` on a non-dict. -/
def pyGet (v : PyVal) (k : String) : Except PyExn PyVal :=
  match v with
  | PyVal.dict fs =>
      Except.ok (((fs.find? (fun kv => kv.1 == k)).map (fun kv => kv.2)).getD PyVal.none)
  | w => Except.error (PyExn.attributeError
      ("\x27" ++ pyTypeName w ++ "\x27 object has no attribute \x27get\x27"))

/-- Python `d.get(k, dflt)`: `AttributeError` on a non-dict. -/
def pyGetD (v : PyVal) (k : String) (dflt : PyVal) : Except PyExn PyVal :=
  match v with
  | PyVal.dict fs =>
      Except.ok (((fs.find? (fun kv => kv.1 == k)).map (fun kv => kv.2)).getD dflt)
  | w => Except.error (PyExn.attributeError
      ("\x27" ++ pyTypeName w ++ "\x27 object has no attribute \x27get\x27"))

/-- Python iteration `for h in v`: lists yield their elements, strings
their characters, dicts their keys; other values raise `TypeError`. -/
def pyIter : PyVal → Except PyExn (List PyVal)
  | PyVal.list xs => Except.ok xs
  | PyVal.str s => Except.ok (s.data.map (fun c => PyVal.str (String.mk [c])))
  | PyVal.dict fs => Except.ok (fs.map (fun kv => PyVal.str kv.1))
  | v => Except.error (PyExn.typeError
      ("\x27" ++ pyTypeName v ++ "\x27 object is not iterable"))

/-- Python list slice `xs[:n]` for an `int` bound `n`: a nonnegative `n`
keeps the first `n` elements, a negative `n` drops the last `-n`. -/
def pySliceTo (n : Int) (xs : List PyVal) : List PyVal :=
  if 0 ≤ n then xs.take n.toNat else xs.take (xs.length - (-n).toNat)

/-- Helper for Python `sep.join(xs)`: all items must be `str`, otherwise
`TypeError`. -/
def pyStrItems : List PyVal → Except PyExn (List String)
  | [] => Except.ok []
  | PyVal.str s :: rest => do
      let tail ← pyStrItems rest
      Except.ok (s :: tail)
  | v :: _ => Except.error (PyExn.typeError
      ("sequence item: expected str instance, " ++ pyTypeName v ++ " found"))

/-- Python `sep.join(xs)`. -/
def pyJoin (sep : String) (xs : List PyVal) : Except PyExn String := do
  let items ← pyStrItems xs
  Except.ok (String.intercalate sep items)

/-- Boolean character-list prefix test, for the substring test below. -/
def chPrefix : List Char → List Char → Bool
  | [], _ => true
  | _ :: _, [] => false
  | a :: as, b :: bs => a == b && chPrefix as bs

/-- Boolean character-list infix test, for the substring test below. -/
def chSub (needle : List Char) : List Char → Bool
  | [] => chPrefix needle []
  | b :: bs => chPrefix needle (b :: bs) || chSub needle bs

/-- Python `needle in hay` for strings: substring containment. -/
def strHasSub (hay needle : String) : Bool := chSub needle.data hay.data

/-- Python membership `needle in v` for a string needle: substring test on
a string, element equality on a list, key lookup on a dict, and
`TypeError` on anything else (in particular on `None`, which is what
`search_amadeus_flights` hits when the token response lacks
`access_token`). -/
def pyInStr (needle : String) : PyVal → Except PyExn Bool
  | PyVal.str s => Except.ok (strHasSub s needle)
  | PyVal.list xs =>
      Except.ok (xs.any (fun v => match v with
        | PyVal.str s => s == needle
        | _ => false))
  | PyVal.dict fs => Except.ok (fs.any (fun kv => kv.1 == needle))
  | v => Except.error (PyExn.typeError
      ("argument of type \x27" ++ pyTypeName v ++ "\x27 is not iterable"))

/-- Python `str.upper()` (ASCII, which covers the travel-class values). -/
def pyUpper (s : String) : String := String.mk (s.data.map Char.toUpper)

mutual
/-- Python `repr` of a value (string escaping is not modelled: the
payloads considered contain no quotes or control characters). -/
def pyRepr : PyVal → String
  | PyVal.none => "None"
  | PyVal.bool true => "True"
  | PyVal.bool false => "False"
  | PyVal.int n => toString n
  | PyVal.str s => "\x27" ++ s ++ "\x27"
  | PyVal.list xs => "[" ++ pyReprElems xs ++ "]"
  | PyVal.dict fs => "\x7b" ++ pyReprFields fs ++ "\x7d"
/-- Comma-separated `repr` of list elements. -/
def pyReprElems : List PyVal → String
  | [] => ""
  | [x] => pyRepr x
  | x :: y :: xs => pyRepr x ++ ", " ++ pyReprElems (y :: xs)
/-- Comma-separated `repr` of dict items. -/
def pyReprFields : List (String × PyVal) → String
  | [] => ""
  | [kv] => "\x27" ++ kv.1 ++ "\x27: " ++ pyRepr kv.2
  | kv :: kv2 :: fs =>
      "\x27" ++ kv.1 ++ "\x27: " ++ pyRepr kv.2 ++ ", " ++ pyReprFields (kv2 :: fs)
end

/-- Python `str(v)`: the string itself for a `str`, `repr` otherwise
(this is what `str(response.json())` and f-string interpolation do). -/
def pyStr : PyVal → String
  | PyVal.str s => s
  | v => pyRepr v

/-- Process environment: `AMADEUS_API_KEY` and `AMADEUS_API_SECRET`
as read by `os.getenv` (absent = `Option.none`). -/
structure Env where
  apiKey : Option String
  apiSecret : Option String

/-- Value of a credential when placed in a form-data dict
(`os.getenv` result: `None` or a string). -/
def credVal : Option String → PyVal
  | Option.none => PyVal.none
  | Option.some s => PyVal.str s

/-- An HTTP response: status code, raw body text, and the result of
`.json()` (`Option.none` models `.json()` raising `ValueError`). -/
structure HttpResponse where
  status : Nat
  text : String
  jsonBody : Option PyVal

/-- Outcome of one outbound HTTP call: a transport-level
`requests.RequestException` carrying no response, or a response (whose
status may still be an error status). -/
inductive NetResult where
  | transportError (msg : String)
  | success (resp : HttpResponse)

/-- HTTP method of an outbound request. -/
inductive Method where
  | get : Method
  | post : Method

/-- An outbound HTTP request as issued by the embedded code: method, URL,
headers, and the query-parameter/form-data dict. -/
structure Request where
  method : Method
  url : String
  headers : List (String × String)
  params : List (String × PyVal)
  timeout : Option Nat

/-- Lookup of a query parameter (dict key) in a request parameter list. -/
def lookupParam (ps : List (String × PyVal)) (k : String) : Option PyVal :=
  (ps.find? (fun kv => kv.1 == k)).map (fun kv => kv.2)

/-- Python dict assignment `d[k] = v`: replaces the value in place if the
key exists (keeping its position), otherwise appends the pair. -/
def dictSet (ps : List (String × PyVal)) (k : String) (v : PyVal) :
    List (String × PyVal) :=
  if ps.any (fun kv => kv.1 == k) then
    ps.map (fun kv => if kv.1 == k then (k, v) else kv)
  else ps ++ [(k, v)]

/-- Rendering of `str(e)` for the `requests.HTTPError` raised by
`raise_for_status` (abstracted to the status code; the exact wording is
irrelevant to the code, which only embeds it in messages). -/
def httpExnText (resp : HttpResponse) : String :=
  toString resp.status ++ " Error"

/-- Message of the `ValueError` raised by `.json()` on a non-JSON body. -/
def jsonDecodeMsg : String := "Expecting value: line 1 column 1 (char 0)"

/-- Module-level `TOKEN_URL` of `amadeus_tool.py` (test environment). -/
def TOKEN_URL : String := "https://test.api.amadeus.com/v1/security/oauth2/token"

/-- Module-level `FLIGHT_OFFERS_URL` of `amadeus_tool.py`. -/
def FLIGHT_OFFERS_URL : String := "https://test.api.amadeus.com/v2/shopping/flight-offers"

/-- Form-data dict sent to the token endpoint (both call sites build the
same dict from the environment credentials). -/
def tokenFormData (env : Env) : List (String × PyVal) :=
  [("grant_type", PyVal.str "client_credentials"),
   ("client_id", credVal env.apiKey),
   ("client_secret", credVal env.apiSecret)]

/-- The token POST issued by `_get_amadeus_token` (no timeout). -/
def flightTokenReq (env : Env) : Request :=
  { method := Method.post
    url := TOKEN_URL
    headers := [("Content-Type", "application/x-www-form-urlencoded")]
    params := tokenFormData env
    timeout := Option.none }

/-- Embedding of `_get_amadeus_token` (src/amadeus_tool.py lines 17-37).
Returns the Python return value (an error string, the token, or `None`
when `access_token` is absent) or an uncaught exception, together with
the requests issued (empty when the credential check fails first).
The single network call, when attempted, consumes `r`. -/
def get_amadeus_token (env : Env) (r : NetResult) :
    Except PyExn PyVal × List Request :=
  if !envTruthy env.apiKey || !envTruthy env.apiSecret then
    (Except.ok (PyVal.str
      "Error: Amadeus API Key or Secret is not set in environment variables."), [])
  else
    let req := flightTokenReq env
    match r with
    | NetResult.transportError msg =>
        (Except.ok (PyVal.str ("Error fetching Amadeus token: " ++ msg)), [req])
    | NetResult.success resp =>
        if 400 ≤ resp.status then
          (Except.ok (PyVal.str ("Error fetching Amadeus token: " ++ httpExnText resp)),
           [req])
        else
          match resp.jsonBody with
          | Option.none => (Except.error (PyExn.valueError jsonDecodeMsg), [req])
          | Option.some j =>
              match pyGet j "access_token" with
              | Except.error e => (Except.error e, [req])
              | Except.ok tok => (Except.ok tok, [req])

/-- Arguments of `search_amadeus_flights`, with the source defaults. -/
structure FlightArgs where
  origin_location_code : String
  destination_location_code : String
  departure_date : String
  adults : Int
  non_stop : Bool := false
  return_date : Option String := Option.none
  children : Int := 0
  infants : Int := 0
  travel_class : Option String := Option.none
  max_results : Int := 3

/-- Travel classes accepted by the flight client (source line 88). -/
def validClasses : List String := ["ECONOMY", "PREMIUM_ECONOMY", "BUSINESS", "FIRST"]

/-- Required flight query parameters (source lines 72-79). -/
def flightRequiredParams (a : FlightArgs) : List (String × PyVal) :=
  [("originLocationCode", PyVal.str a.origin_location_code),
   ("destinationLocationCode", PyVal.str a.destination_location_code),
   ("departureDate", PyVal.str a.departure_date),
   ("adults", PyVal.int a.adults),
   ("nonStop", PyVal.str (if a.non_stop then "true" else "false")),
   ("max", PyVal.int a.max_results)]

/-- Optional `returnDate` entry (`if return_date:`, source lines 81-82). -/
def returnDateParam (a : FlightArgs) : List (String × PyVal) :=
  match a.return_date with
  | Option.none => []
  | Option.some rd => if rd != "" then [("returnDate", PyVal.str rd)] else []

/-- Optional `children` entry (`if children > 0:`, source lines 83-84). -/
def childrenParam (a : FlightArgs) : List (String × PyVal) :=
  if 0 < a.children then [("children", PyVal.int a.children)] else []

/-- Optional `infants` entry (`if infants > 0:`, source lines 85-86). -/
def infantsParam (a : FlightArgs) : List (String × PyVal) :=
  if 0 < a.infants then [("infants", PyVal.int a.infants)] else []

/-- Optional `travelClass` entry (`if travel_class:` then membership of
`travel_class.upper()` in the accepted list, source lines 87-89). -/
def travelClassParam (a : FlightArgs) : List (String × PyVal) :=
  match a.travel_class with
  | Option.none => []
  | Option.some tc =>
      if tc != "" then
        if validClasses.contains (pyUpper tc) then
          [("travelClass", PyVal.str (pyUpper tc))]
        else []
      else []

/-- Full flight query-parameter dict: the required entries followed by the
conditionally-added optional entries, in the order the source adds them
(all keys are distinct, so sequential dict insertion is concatenation). -/
def flightParams (a : FlightArgs) : List (String × PyVal) :=
  flightRequiredParams a ++ returnDateParam a ++ childrenParam a
    ++ infantsParam a ++ travelClassParam a

/-- The flight-offers GET issued by `search_amadeus_flights`; the bearer
header interpolates the token with `str()` as the f-string does. -/
def flightOffersReq (a : FlightArgs) (token : PyVal) : Request :=
  { method := Method.get
    url := FLIGHT_OFFERS_URL
    headers := [("Authorization", "Bearer " ++ pyStr token)]
    params := flightParams a
    timeout := Option.none }

/-- Embedding of `search_amadeus_flights` (src/amadeus_tool.py lines
39-100): fetch a token, short-circuit when the token value contains the
substring `"Error"` (a `TypeError` when the token is `None`), then one
GET whose 2xx result is returned as `str(response.json())` and whose
failures are collapsed into descriptive strings. -/
def search_amadeus_flights (env : Env) (net : Nat → NetResult) (a : FlightArgs) :
    Except PyExn PyVal × List Request :=
  let tk := get_amadeus_token env (net 0)
  match tk.1 with
  | Except.error e => (Except.error e, tk.2)
  | Except.ok token =>
    match pyInStr "Error" token with
    | Except.error e => (Except.error e, tk.2)
    | Except.ok true => (Except.ok token, tk.2)
    | Except.ok false =>
      let req := flightOffersReq a token
      match net 1 with
      | NetResult.transportError msg =>
          (Except.ok (PyVal.str ("Error fetching flight offers: " ++ msg)),
           tk.2 ++ [req])
      | NetResult.success resp =>
          if 400 ≤ resp.status then
            (Except.ok (PyVal.str ("Error from Amadeus API: " ++ resp.text)),
             tk.2 ++ [req])
          else
            match resp.jsonBody with
            | Option.none =>
                (Except.error (PyExn.valueError jsonDecodeMsg), tk.2 ++ [req])
            | Option.some j =>
                (Except.ok (PyVal.str (pyStr j)), tk.2 ++ [req])

/-- Arguments of `search_amadeus_hotels`, with the source defaults. -/
structure HotelArgs where
  city_code : String
  check_in_date : String
  check_out_date : String
  adults : Int
  use_test_env : Bool := true
  radius_km : Int := 1000
  max_hotels : Int := 5
  currency : String := "EUR"
  price_range : String := "1-10000"
  room_quantity : Int := 1
  view : String := ""

/-- Base URL selected by `use_test_env`. -/
def hotelBase (a : HotelArgs) : String :=
  if a.use_test_env then "https://test.api.amadeus.com" else "https://api.amadeus.com"

/-- The token POST issued by the hotel client (timeout 20; note that the
hotel client performs no credential check before POSTing). -/
def hotelTokenReq (env : Env) (a : HotelArgs) : Request :=
  { method := Method.post
    url := hotelBase a ++ "/v1/security/oauth2/token"
    headers := [("Content-Type", "application/x-www-form-urlencoded")]
    params := tokenFormData env
    timeout := Option.some 20 }

/-- The step-1 hotel-list GET (cityCode, radius, radiusUnit fixed to KM). -/
def hotelListReq (a : HotelArgs) (token : PyVal) : Request :=
  { method := Method.get
    url := hotelBase a ++ "/v1/reference-data/locations/hotels/by-city"
    headers := [("Authorization", "Bearer " ++ pyStr token)]
    params := [("cityCode", PyVal.str a.city_code),
               ("radius", PyVal.int a.radius_km),
               ("radiusUnit", PyVal.str "KM")]
    timeout := Option.some 20 }

/-- Step-2 offer parameters (source lines 165-185): the dict literal
unconditionally contains `priceRange` (set to the argument) and `view`
(set to `"FULL"`); afterwards `currency` is added when non-empty, and
`priceRange` / `view` are re-assigned when non-empty. -/
def hotelOfferParams (a : HotelArgs) (idsJoined : String) : List (String × PyVal) :=
  let base :=
    [("hotelIds", PyVal.str idsJoined),
     ("checkInDate", PyVal.str a.check_in_date),
     ("checkOutDate", PyVal.str a.check_out_date),
     ("adults", PyVal.int a.adults),
     ("roomQuantity", PyVal.int a.room_quantity),
     ("includeClosed", PyVal.str "true"),
     ("bestRateOnly", PyVal.str "false"),
     ("priceRange", PyVal.str a.price_range),
     ("view", PyVal.str "FULL")]
  let p1 := if a.currency != "" then dictSet base "currency" (PyVal.str a.currency) else base
  let p2 := if a.price_range != "" then dictSet p1 "priceRange" (PyVal.str a.price_range) else p1
  if a.view != "" then dictSet p2 "view" (PyVal.str a.view) else p2

/-- The step-2 hotel-offers GET. -/
def hotelOffersReq (a : HotelArgs) (token : PyVal) (idsJoined : String) : Request :=
  { method := Method.get
    url := hotelBase a ++ "/v3/shopping/hotel-offers"
    headers := [("Authorization", "Bearer " ++ pyStr token)]
    params := hotelOfferParams a idsJoined
    timeout := Option.some 20 }

/-- Outcome of one stage of the hotel client: continue with a value,
return a step-tagged error dict, or propagate an uncaught exception. -/
inductive StageOut (α : Type) where
  | ok (a : α)
  | err (d : PyVal)
  | crash (e : PyExn)

/-- Auth-stage error dict (`"Amadeus authentication failed"`). -/
def authFailDict (details : String) : PyVal :=
  PyVal.dict [("error", PyVal.str "Amadeus authentication failed"),
              ("details", PyVal.str details),
              ("step", PyVal.str "auth")]

/-- Auth-stage error dict for a token response without `access_token`. -/
def noTokenDict (bodyText : String) : PyVal :=
  PyVal.dict [("error", PyVal.str "No access_token in token response"),
              ("details", PyVal.str bodyText),
              ("step", PyVal.str "auth")]

/-- Step-1 error dict for a transport or HTTP failure. -/
def listFailDict (details : String) : PyVal :=
  PyVal.dict [("error", PyVal.str "Hotel List API error"),
              ("details", PyVal.str details),
              ("step", PyVal.int 1)]

/-- Step-1 error dict for a caught extraction exception. -/
def parseFailDict (e : PyExn) : PyVal :=
  PyVal.dict [("error", PyVal.str ("Could not parse hotel IDs: " ++ exnText e)),
              ("step", PyVal.int 1)]

/-- Step-1 error dict for an empty hotel-identifier list. -/
def noHotelsDict (cityCode : String) : PyVal :=
  PyVal.dict [("error", PyVal.str
                ("No hotels found in " ++ cityCode ++ ". Check city code or increase radius.")),
              ("step", PyVal.int 1)]

/-- Step-2 error dict for a transport or HTTP failure. -/
def offersFailDict (details : String) : PyVal :=
  PyVal.dict [("error", PyVal.str "Hotel Offers API error"),
              ("details", PyVal.str details),
              ("step", PyVal.int 2)]

/-- Auth stage of `search_amadeus_hotels` (source lines 135-143): POST the
credentials, `raise_for_status`, read `access_token` from the JSON body
and check its truthiness.  A `ValueError` from `.json()` or an
`AttributeError` from `.get` is not caught by the surrounding
`except requests.exceptions.RequestException` and so crashes. -/
def hotelAuth (r : NetResult) : StageOut PyVal :=
  match r with
  | NetResult.transportError msg => StageOut.err (authFailDict msg)
  | NetResult.success resp =>
      if 400 ≤ resp.status then StageOut.err (authFailDict (httpExnText resp))
      else
        match resp.jsonBody with
        | Option.none => StageOut.crash (PyExn.valueError jsonDecodeMsg)
        | Option.some j =>
            match pyGet j "access_token" with
            | Except.error e => StageOut.crash e
            | Except.ok tok =>
                if pyTruthy tok then StageOut.ok tok
                else StageOut.err (noTokenDict resp.text)

/-- Extraction of the provider data list in step 1:
`list_resp.json().get("data", [])` followed by iteration. -/
def dataListOf (jsonBody : Option PyVal) : Except PyExn (List PyVal) := do
  match jsonBody with
  | Option.none => Except.error (PyExn.valueError jsonDecodeMsg)
  | Option.some j => do
      let hotelsData ← pyGetD j "data" (PyVal.list [])
      pyIter hotelsData

/-- Filter-and-truncate of step 1: the comprehension
`[h.get("hotelId") for h in hotels_data if h.get("hotelId")]` followed by
the slice `[:max_hotels]`. -/
def hotelIdsSlice (vals : List PyVal) (maxHotels : Int) : List PyVal :=
  pySliceTo maxHotels (vals.filter pyTruthy)

/-- Full body extraction of step 1 (source lines 149-153). -/
def step1Extract (jsonBody : Option PyVal) (maxHotels : Int) :
    Except PyExn (List PyVal) := do
  let ds ← dataListOf jsonBody
  let vals ← ds.mapM (fun h => pyGet h "hotelId")
  Except.ok (hotelIdsSlice vals maxHotels)

/-- Exception classes caught by the step-1 handler
`except (ValueError, KeyError, TypeError)`. -/
def parseCaught : PyExn → Bool
  | PyExn.valueError _ => true
  | PyExn.keyError _ => true
  | PyExn.typeError _ => true
  | PyExn.attributeError _ => false

/-- Step 1 of `search_amadeus_hotels` (source lines 147-158): GET the
hotel list, `raise_for_status`, extract at most `max_hotels` identifiers;
transport/HTTP failures and caught extraction exceptions become
step-1-tagged error dicts, other exceptions crash. -/
def hotelListStage (r : NetResult) (maxHotels : Int) : StageOut (List PyVal) :=
  match r with
  | NetResult.transportError msg => StageOut.err (listFailDict msg)
  | NetResult.success resp =>
      if 400 ≤ resp.status then StageOut.err (listFailDict (httpExnText resp))
      else
        match step1Extract resp.jsonBody maxHotels with
        | Except.error e =>
            if parseCaught e then StageOut.err (parseFailDict e) else StageOut.crash e
        | Except.ok ids => StageOut.ok ids

/-- Step 2 of `search_amadeus_hotels` (source lines 187-194): GET the
offers, `raise_for_status`, and return the parsed JSON body verbatim
(a `ValueError` from `.json()` crashes). -/
def hotelOffersStage (r : NetResult) : StageOut PyVal :=
  match r with
  | NetResult.transportError msg => StageOut.err (offersFailDict msg)
  | NetResult.success resp =>
      if 400 ≤ resp.status then StageOut.err (offersFailDict (httpExnText resp))
      else
        match resp.jsonBody with
        | Option.none => StageOut.crash (PyExn.valueError jsonDecodeMsg)
        | Option.some j => StageOut.ok j

/-- Embedding of `search_amadeus_hotels` (src/amadeus_tool.py lines
102-194): auth, hotel list, emptiness check, `",".join`, offers.  The
trace records the requests actually issued; note that the token POST is
issued unconditionally (there is no credential check on this path). -/
def search_amadeus_hotels (env : Env) (net : Nat → NetResult) (a : HotelArgs) :
    Except PyExn PyVal × List Request :=
  let tReq := hotelTokenReq env a
  match hotelAuth (net 0) with
  | StageOut.crash e => (Except.error e, [tReq])
  | StageOut.err d => (Except.ok d, [tReq])
  | StageOut.ok token =>
    let lReq := hotelListReq a token
    match hotelListStage (net 1) a.max_hotels with
    | StageOut.crash e => (Except.error e, [tReq, lReq])
    | StageOut.err d => (Except.ok d, [tReq, lReq])
    | StageOut.ok hotel_ids =>
      if hotel_ids.isEmpty then
        (Except.ok (noHotelsDict a.city_code), [tReq, lReq])
      else
        match pyJoin "," hotel_ids with
        | Except.error e => (Except.error e, [tReq, lReq])
        | Except.ok idsJoined =>
          let oReq := hotelOffersReq a token idsJoined
          match hotelOffersStage (net 2) with
          | StageOut.crash e => (Except.error e, [tReq, lReq, oReq])
          | StageOut.err d => (Except.ok d, [tReq, lReq, oReq])
          | StageOut.ok payload => (Except.ok payload, [tReq, lReq, oReq])

/-- Value of the `"step"` field of a result dict (for stating which stage
an error dict is tagged with). -/
def stepOf (v : PyVal) : Option PyVal :=
  match v with
  | PyVal.dict fs => (fs.find? (fun kv => kv.1 == "step")).map (fun kv => kv.2)
  | _ => Option.none

/-! Concrete fixtures used by the witnesses and counterexamples. -/

/-- Environment with both credentials present. -/
def envOk : Env := { apiKey := Option.some "key", apiSecret := Option.some "secret" }

/-- Environment with the API key unset. -/
def envMissing : Env := { apiKey := Option.none, apiSecret := Option.some "secret" }

/-- Sample flight arguments (defaults for the optional fields). -/
def flightArgs0 : FlightArgs :=
  { origin_location_code := "JFK"
    destination_location_code := "LHR"
    departure_date := "2026-02-15"
    adults := 1 }

/-- Sample hotel arguments (defaults for the optional fields). -/
def hotelArgs0 : HotelArgs :=
  { city_code := "PAR"
    check_in_date := "2026-02-15"
    check_out_date := "2026-02-18"
    adults := 1 }

/-- Hotel arguments asking for `currency`, `price_range` and `view` to be
omitted (all three set to the empty string, as the signature comments of
the source describe: `set "" to omit`). -/
def hotelArgsEmptyFilters : HotelArgs :=
  { city_code := "PAR"
    check_in_date := "2026-02-15"
    check_out_date := "2026-02-18"
    adults := 1
    currency := ""
    price_range := ""
    view := "" }

/-- A 2xx token response carrying `access_token = "tok"`. -/
def tokenRespOk : NetResult :=
  NetResult.success
    { status := 200
      text := "\x7b\"access_token\": \"tok\"\x7d"
      jsonBody := Option.some (PyVal.dict [("access_token", PyVal.str "tok")]) }

/-- A 2xx hotel-list response with exactly one hotel id `"H1"`. -/
def listRespOne : NetResult :=
  NetResult.success
    { status := 200
      text := "\x7b\"data\": [\x7b\"hotelId\": \"H1\"\x7d]\x7d"
      jsonBody := Option.some (PyVal.dict
        [("data", PyVal.list [PyVal.dict [("hotelId", PyVal.str "H1")]])]) }

/-- A 2xx hotel-list response with an empty `data` array. -/
def listRespEmpty : NetResult :=
  NetResult.success
    { status := 200
      text := "\x7b\"data\": []\x7d"
      jsonBody := Option.some (PyVal.dict [("data", PyVal.list [])]) }

/-- A 2xx hotel-list response whose `data` field is the integer 5, so that
iterating it raises `TypeError`. -/
def listRespBadData : NetResult :=
  NetResult.success
    { status := 200
      text := "\x7b\"data\": 5\x7d"
      jsonBody := Option.some (PyVal.dict [("data", PyVal.int 5)]) }

/-- A 2xx offers response with an empty payload dict. -/
def offersRespOk : NetResult :=
  NetResult.success
    { status := 200
      text := "\x7b\"data\": []\x7d"
      jsonBody := Option.some (PyVal.dict [("data", PyVal.list [])]) }

/-- Network oracle: token, one-hotel list, offers — the all-success chain. -/
def netGood : Nat → NetResult
  | 0 => tokenRespOk
  | 1 => listRespOne
  | _ => offersRespOk

/-- Network oracle: token succeeds, the hotel list is empty. -/
def netEmptyList : Nat → NetResult
  | 0 => tokenRespOk
  | _ => listRespEmpty

/-- Network oracle: token succeeds, the hotel-list `data` is not iterable. -/
def netBadData : Nat → NetResult
  | 0 => tokenRespOk
  | _ => listRespBadData

/-- Network oracle on which every call fails at the transport level. -/
def netDown : Nat → NetResult := fun _ => NetResult.transportError "connection refused"

/-- Network oracle whose token response is 2xx valid JSON without an
`access_token` field. -/
def netTokenMissing : Nat → NetResult := fun _ =>
  NetResult.success { status := 200, text := "\x7b\x7d", jsonBody := Option.some (PyVal.dict []) }

/-- Raw body text of the 2xx flight-offers response used below. -/
def flightBodyText : String := "\x7b\"a\": true\x7d"

/-- The 2xx flight-offers response: raw text `flightBodyText`, parsed
body the dict mapping `"a"` to `True`. -/
def respFlightJson : HttpResponse :=
  { status := 200
    text := flightBodyText
    jsonBody := Option.some (PyVal.dict [("a", PyVal.bool true)]) }

/-- Network oracle: token succeeds, then the flight GET returns
`respFlightJson`. -/
def netFlightJson : Nat → NetResult
  | 0 => tokenRespOk
  | _ => NetResult.success respFlightJson

/-! Helper lemmas about parameter lookup. -/

/-- Parameter lookup distributes over concatenation of parameter lists. -/
theorem lookupParam_append (xs ys : List (String × PyVal)) (k : String) :
    lookupParam (xs ++ ys) k = (lookupParam xs k).or (lookupParam ys k) := by
  unfold lookupParam
  rw [List.find?_append]
  cases xs.find? (fun kv => kv.1 == k) <;> simp

/-- Lookup in a one-entry parameter list with a different key. -/
theorem lookupParam_single_ne (k0 k : String) (v : PyVal) (h : (k0 == k) = false) :
    lookupParam [(k0, v)] k = Option.none := by
  simp [lookupParam, List.find?, h]

/-- The `returnDate` chunk never contains a key other than `"returnDate"`. -/
theorem lookupParam_returnDateParam (a : FlightArgs) (k : String)
    (h : ("returnDate" == k) = false) :
    lookupParam (returnDateParam a) k = Option.none := by
  unfold returnDateParam
  cases a.return_date with
  | none => rfl
  | some rd =>
      cases hrd : (rd != "") <;> simp [hrd, lookupParam, List.find?, h]

/-- The `children` chunk never contains a key other than `"children"`. -/
theorem lookupParam_childrenParam (a : FlightArgs) (k : String)
    (h : ("children" == k) = false) :
    lookupParam (childrenParam a) k = Option.none := by
  unfold childrenParam
  by_cases hc : 0 < a.children <;> simp [hc, lookupParam, List.find?, h]

/-- The `infants` chunk never contains a key other than `"infants"`. -/
theorem lookupParam_infantsParam (a : FlightArgs) (k : String)
    (h : ("infants" == k) = false) :
    lookupParam (infantsParam a) k = Option.none := by
  unfold infantsParam
  by_cases hc : 0 < a.infants <;> simp [hc, lookupParam, List.find?, h]

/-- The `travelClass` chunk never contains a key other than `"travelClass"`. -/
theorem lookupParam_travelClassParam (a : FlightArgs) (k : String)
    (h : ("travelClass" == k) = false) :
    lookupParam (travelClassParam a) k = Option.none := by
  unfold travelClassParam
  cases a.travel_class with
  | none => rfl
  | some tc =>
      cases htc : (tc != "")
      · simp [htc, lookupParam]
      · by_cases hv : pyUpper tc ∈ validClasses <;>
          simp [htc, hv, lookupParam, List.find?, h]

/-- C6: in the flight-offers query, the `travelClass` parameter is present
exactly when the uppercased caller-supplied travel class is one of
ECONOMY, PREMIUM_ECONOMY, BUSINESS, FIRST, in which case the uppercased
value is sent; any other travel class (including an unrecognized one such
as "FOO") is silently omitted rather than rejected. -/
theorem C6_travel_class_param (a : FlightArgs) :
    lookupParam (flightParams a) "travelClass" =
      (match a.travel_class with
       | Option.none => Option.none
       | Option.some tc =>
           if validClasses.contains (pyUpper tc) then
             Option.some (PyVal.str (pyUpper tc))
           else Option.none) := by
  have hreq : lookupParam (flightRequiredParams a) "travelClass" = Option.none := rfl
  rw [flightParams, lookupParam_append, lookupParam_append, lookupParam_append,
    lookupParam_append, hreq, lookupParam_returnDateParam a "travelClass" rfl,
    lookupParam_childrenParam a "travelClass" rfl, lookupParam_infantsParam a "travelClass" rfl]
  simp only [Option.or]
  unfold travelClassParam
  cases a.travel_class with
  | none => rfl
  | some tc =>
      by_cases htc : tc = ""
      · subst htc
        have hnv : ¬ (pyUpper "" ∈ validClasses) := by decide
        simp [lookupParam, hnv]
      · have htc' : (tc != "") = true := by simpa using htc
        by_cases hv : pyUpper tc ∈ validClasses <;>
          simp [htc', hv, lookupParam, List.find?]

/-- C9: the `children` and `infants` parameters of the flight-offers query
are present exactly when the corresponding argument is greater than zero
(in particular, with `children = 0` and `infants = 0` both are entirely
absent, not sent as zero). -/
theorem C9_children_infants_params (a : FlightArgs) :
    lookupParam (flightParams a) "children" =
      (if 0 < a.children then Option.some (PyVal.int a.children) else Option.none)
    ∧ lookupParam (flightParams a) "infants" =
      (if 0 < a.infants then Option.some (PyVal.int a.infants) else Option.none) := by
  constructor
  · have hreq : lookupParam (flightRequiredParams a) "children" = Option.none := rfl
    rw [flightParams, lookupParam_append, lookupParam_append, lookupParam_append,
      lookupParam_append, hreq, lookupParam_returnDateParam a "children" rfl,
      lookupParam_infantsParam a "children" rfl, lookupParam_travelClassParam a "children" rfl]
    simp only [Option.or]
    unfold childrenParam
    by_cases hc : 0 < a.children <;> simp [hc, lookupParam, List.find?]
  · have hreq : lookupParam (flightRequiredParams a) "infants" = Option.none := rfl
    rw [flightParams, lookupParam_append, lookupParam_append, lookupParam_append,
      lookupParam_append, hreq, lookupParam_returnDateParam a "infants" rfl,
      lookupParam_childrenParam a "infants" rfl, lookupParam_travelClassParam a "infants" rfl]
    simp only [Option.or]
    unfold infantsParam
    by_cases hc : 0 < a.infants <;> simp [hc, lookupParam, List.find?]

/-- C3 fails on the code: with `currency`, `price_range` and `view` all
empty (the caller asking for all three to be omitted), the step-2 offers
request of the successful chain still contains `priceRange` (with empty
value) and `view` (with the hard-coded value "FULL"), because the source
puts both keys unconditionally into the `offer_params` dict literal; only
`currency` is omitted as claimed. -/
theorem C3_empty_filters_still_sent :
    lookupParam (hotelOfferParams hotelArgsEmptyFilters "H1") "priceRange" =
      Option.some (PyVal.str "")
    ∧ lookupParam (hotelOfferParams hotelArgsEmptyFilters "H1") "view" =
      Option.some (PyVal.str "FULL")
    ∧ lookupParam (hotelOfferParams hotelArgsEmptyFilters "H1") "currency" = Option.none
    ∧ (search_amadeus_hotels envOk netGood hotelArgsEmptyFilters).2 =
        [hotelTokenReq envOk hotelArgsEmptyFilters,
         hotelListReq hotelArgsEmptyFilters (PyVal.str "tok"),
         hotelOffersReq hotelArgsEmptyFilters (PyVal.str "tok") "H1"] :=
  ⟨rfl, rfl, rfl, rfl⟩

/-- C4: when authentication succeeds and the step-1 hotel-list request
succeeds but yields an empty identifier list (after filtering and
truncation), the hotel client returns the step-1-tagged no-hotels error
and issues no step-2 offers request (exactly the token POST and the list
GET are issued). -/
theorem C4_empty_hotel_list (env : Env) (net : Nat → NetResult) (a : HotelArgs)
    (token : PyVal)
    (h0 : hotelAuth (net 0) = StageOut.ok token)
    (h1 : hotelListStage (net 1) a.max_hotels = StageOut.ok []) :
    search_amadeus_hotels env net a =
      (Except.ok (noHotelsDict a.city_code), [hotelTokenReq env a, hotelListReq a token])
    ∧ stepOf (noHotelsDict a.city_code) = Option.some (PyVal.int 1) := by
  constructor
  · unfold search_amadeus_hotels
    rw [h0, h1]
    rfl
  · rfl

/-- C4 witness: the concrete chain with a successful token and an empty
hotel-list response. -/
theorem C4_witness :
    search_amadeus_hotels envOk netEmptyList hotelArgs0 =
      (Except.ok (noHotelsDict hotelArgs0.city_code),
       [hotelTokenReq envOk hotelArgs0, hotelListReq hotelArgs0 (PyVal.str "tok")])
    ∧ stepOf (noHotelsDict hotelArgs0.city_code) = Option.some (PyVal.int 1) :=
  C4_empty_hotel_list envOk netEmptyList hotelArgs0 (PyVal.str "tok") rfl rfl

/-- C10: when the step-1 body extraction raises a `ValueError`, `KeyError`
or `TypeError`, the hotel client returns the structured step-1-tagged
parse-failure dict instead of propagating the exception. -/
theorem C10_parse_exception_handled (env : Env) (net : Nat → NetResult) (a : HotelArgs)
    (token : PyVal) (resp : HttpResponse) (e : PyExn)
    (h0 : hotelAuth (net 0) = StageOut.ok token)
    (h1 : net 1 = NetResult.success resp)
    (h2 : resp.status < 400)
    (h3 : step1Extract resp.jsonBody a.max_hotels = Except.error e)
    (h4 : parseCaught e = true) :
    (search_amadeus_hotels env net a).1 = Except.ok (parseFailDict e)
    ∧ (search_amadeus_hotels env net a).2 = [hotelTokenReq env a, hotelListReq a token]
    ∧ stepOf (parseFailDict e) = Option.some (PyVal.int 1) := by
  have hls : hotelListStage (net 1) a.max_hotels = StageOut.err (parseFailDict e) := by
    simp only [hotelListStage, h1]
    rw [if_neg (by omega), h3]
    simp [h4]
  refine ⟨?_, ?_, rfl⟩
  · unfold search_amadeus_hotels
    rw [h0, hls]
  · unfold search_amadeus_hotels
    rw [h0, hls]

/-- C10 witness: a 2xx hotel-list response whose `data` field is not
iterable raises `TypeError`, which is caught and turned into the step-1
parse-failure dict. -/
theorem C10_witness :
    (search_amadeus_hotels envOk netBadData hotelArgs0).1 =
      Except.ok (parseFailDict (PyExn.typeError "\x27int\x27 object is not iterable"))
    ∧ (search_amadeus_hotels envOk netBadData hotelArgs0).2 =
        [hotelTokenReq envOk hotelArgs0, hotelListReq hotelArgs0 (PyVal.str "tok")]
    ∧ stepOf (parseFailDict (PyExn.typeError "\x27int\x27 object is not iterable")) =
        Option.some (PyVal.int 1) :=
  C10_parse_exception_handled envOk netBadData hotelArgs0 (PyVal.str "tok")
    { status := 200
      text := "\x7b\"data\": 5\x7d"
      jsonBody := Option.some (PyVal.dict [("data", PyVal.int 5)]) }
    (PyExn.typeError "\x27int\x27 object is not iterable") rfl rfl (by decide) rfl rfl

/-- C8: a successful step-1 extraction selects at most `max_hotels`
identifiers, and the selection is a sublist of the hotel-identifier values
of the provider response in provider order (so relative order is
preserved). -/
theorem C8_truncation_preserves_order (body : Option PyVal) (maxH : Int)
    (ids : List PyVal) (hpos : 0 ≤ maxH)
    (h : step1Extract body maxH = Except.ok ids) :
    (ids.length : Int) ≤ maxH
    ∧ ∃ ds vals, dataListOf body = Except.ok ds
        ∧ ds.mapM (fun hv => pyGet hv "hotelId") = Except.ok vals
        ∧ List.Sublist ids vals := by
  unfold step1Extract at h
  cases hds : dataListOf body with
  | error e => rw [hds] at h; simp [Bind.bind, Except.bind] at h
  | ok ds =>
      rw [hds] at h
      simp only [Bind.bind, Except.bind] at h
      cases hm : ds.mapM (fun hv => pyGet hv "hotelId") with
      | error e => rw [hm] at h; simp at h
      | ok vals =>
          rw [hm] at h
          simp only [Except.ok.injEq] at h
          subst h
          have hslice : hotelIdsSlice vals maxH =
              (vals.filter pyTruthy).take maxH.toNat := by
            unfold hotelIdsSlice pySliceTo
            rw [if_pos hpos]
          constructor
          · rw [hslice]
            have hlen : ((vals.filter pyTruthy).take maxH.toNat).length ≤ maxH.toNat :=
              List.length_take_le _ _
            calc (((vals.filter pyTruthy).take maxH.toNat).length : Int)
                ≤ (maxH.toNat : Int) := by exact_mod_cast hlen
              _ = maxH := Int.toNat_of_nonneg hpos
          · refine ⟨ds, vals, rfl, hm, ?_⟩
            rw [hslice]
            exact (List.take_sublist _ _).trans (List.filter_sublist _)

/-- C8 witness: three provider entries, `max_hotels = 2`, selection is the
first two identifiers in provider order. -/
theorem C8_witness :
    (([PyVal.str "H1", PyVal.str "H2"] : List PyVal).length : Int) ≤ 2
    ∧ ∃ ds vals,
        dataListOf (Option.some (PyVal.dict
          [("data", PyVal.list
            [PyVal.dict [("hotelId", PyVal.str "H1")],
             PyVal.dict [("hotelId", PyVal.str "H2")],
             PyVal.dict [("hotelId", PyVal.str "H3")]])])) = Except.ok ds
        ∧ ds.mapM (fun hv => pyGet hv "hotelId") = Except.ok vals
        ∧ List.Sublist [PyVal.str "H1", PyVal.str "H2"] vals :=
  C8_truncation_preserves_order
    (Option.some (PyVal.dict
      [("data", PyVal.list
        [PyVal.dict [("hotelId", PyVal.str "H1")],
         PyVal.dict [("hotelId", PyVal.str "H2")],
         PyVal.dict [("hotelId", PyVal.str "H3")]])]))
    2 [PyVal.str "H1", PyVal.str "H2"] (by omega) rfl

/-- C1 fails on the code as stated: with the API key unset, the hotel
client does not return a configuration error with zero network calls —
it issues the token POST anyway (its request trace is non-empty even on a
dead network). -/
theorem C1_counterexample :
    (search_amadeus_hotels envMissing netDown hotelArgs0).2 ≠ ([] : List Request) := by
  have h : (search_amadeus_hotels envMissing netDown hotelArgs0).2 =
      [hotelTokenReq envMissing hotelArgs0] := rfl
  rw [h]
  exact List.cons_ne_nil _ _

/-- The hotel client always issues the token POST first, whatever the
environment and the network (there is no credential check on this path). -/
theorem hotels_trace_head (env : Env) (net : Nat → NetResult) (a : HotelArgs) :
    (search_amadeus_hotels env net a).2.head? = Option.some (hotelTokenReq env a) := by
  unfold search_amadeus_hotels
  rcases hotelAuth (net 0) with token | d | e <;> simp
  rcases hotelListStage (net 1) a.max_hotels with ids | d | e <;> simp
  by_cases hids : ids.isEmpty <;> simp [hids]
  rcases pyJoin "," ids with e | s <;> simp
  rcases hotelOffersStage (net 2) with payload | d | e <;> simp

/-- C1 amended: with the API key or secret unset, `search_amadeus_flights`
returns the configuration-error string immediately and issues zero
outbound calls; `search_amadeus_hotels`, which performs no credential
check, issues the token POST regardless. -/
theorem C1_missing_credentials (env : Env) (net : Nat → NetResult)
    (fa : FlightArgs) (ha : HotelArgs)
    (h : envTruthy env.apiKey = false ∨ envTruthy env.apiSecret = false) :
    search_amadeus_flights env net fa =
      (Except.ok (PyVal.str
        "Error: Amadeus API Key or Secret is not set in environment variables."), [])
    ∧ (search_amadeus_hotels env net ha).2.head? = Option.some (hotelTokenReq env ha) := by
  have ht : get_amadeus_token env (net 0) =
      (Except.ok (PyVal.str
        "Error: Amadeus API Key or Secret is not set in environment variables."), []) := by
    unfold get_amadeus_token
    rcases h with h | h <;> simp [h]
  constructor
  · unfold search_amadeus_flights
    rw [ht]
    rfl
  · exact hotels_trace_head env net ha

/-- C1 witness: the amended statement at a concrete unset-key environment
and a dead network. -/
theorem C1_witness :
    search_amadeus_flights envMissing netDown flightArgs0 =
      (Except.ok (PyVal.str
        "Error: Amadeus API Key or Secret is not set in environment variables."), [])
    ∧ (search_amadeus_hotels envMissing netDown hotelArgs0).2.head? =
        Option.some (hotelTokenReq envMissing hotelArgs0) :=
  C1_missing_credentials envMissing netDown flightArgs0 hotelArgs0 (Or.inl rfl)

/-- C2 fails on the flight path: on a 2xx token response that is valid
JSON but lacks `access_token`, `_get_amadeus_token` returns Python `None`
and `search_amadeus_flights` raises `TypeError` at the `"Error" in token`
membership test instead of returning an error result; the hotel client
does surface the distinct step="auth" error dict. -/
theorem C2_missing_token_field :
    search_amadeus_flights envOk netTokenMissing flightArgs0 =
      (Except.error (PyExn.typeError "argument of type \x27NoneType\x27 is not iterable"),
       [flightTokenReq envOk])
    ∧ (search_amadeus_hotels envOk netTokenMissing hotelArgs0).1 =
        Except.ok (noTokenDict "\x7b\x7d")
    ∧ stepOf (noTokenDict "\x7b\x7d") = Option.some (PyVal.str "auth") :=
  ⟨rfl, rfl, rfl⟩

/-- C7 fails on the code as stated: on a 2xx flight-offers response the
client does not return the body verbatim — it parses the body as JSON and
returns the Python string rendering of the parsed value, which differs
from the raw body text. -/
theorem C7_counterexample :
    (search_amadeus_flights envOk netFlightJson flightArgs0).1 =
      Except.ok (PyVal.str "\x7b\x27a\x27: True\x7d")
    ∧ (search_amadeus_flights envOk netFlightJson flightArgs0).1 ≠
        Except.ok (PyVal.str flightBodyText) := by
  have hrepr : pyStr (PyVal.dict [("a", PyVal.bool true)]) = "\x7b\x27a\x27: True\x7d" := by
    simp [pyStr, pyRepr, pyReprFields]
  have hres : (search_amadeus_flights envOk netFlightJson flightArgs0).1 =
      Except.ok (PyVal.str (pyStr (PyVal.dict [("a", PyVal.bool true)]))) := rfl
  constructor
  · rw [hres, hrepr]
  · rw [hres, hrepr]
    intro hc
    have h1 := Except.ok.inj hc
    have h2 := PyVal.str.inj h1
    revert h2
    decide

/-- C7 amended: on a 2xx flight-offers response whose body parses as JSON,
the client returns `str()` of the parsed JSON body (the Python rendering
of the parsed payload, not the byte-for-byte body text); the payload
structure is not validated. -/
theorem C7_returns_str_of_json (env : Env) (net : Nat → NetResult) (a : FlightArgs)
    (token : PyVal) (resp : HttpResponse) (j : PyVal)
    (h0 : (get_amadeus_token env (net 0)).1 = Except.ok token)
    (h1 : pyInStr "Error" token = Except.ok false)
    (h2 : net 1 = NetResult.success resp)
    (h3 : resp.status < 400)
    (h4 : resp.jsonBody = Option.some j) :
    (search_amadeus_flights env net a).1 = Except.ok (PyVal.str (pyStr j)) := by
  simp only [search_amadeus_flights, h0, h1, h2, h4]
  rw [if_neg (by omega)]

/-- C7 witness: the amended statement at the concrete 2xx JSON response. -/
theorem C7_witness :
    (search_amadeus_flights envOk netFlightJson flightArgs0).1 =
      Except.ok (PyVal.str (pyStr (PyVal.dict [("a", PyVal.bool true)]))) :=
  C7_returns_str_of_json envOk netFlightJson flightArgs0 (PyVal.str "tok")
    respFlightJson (PyVal.dict [("a", PyVal.bool true)]) rfl rfl rfl (by decide) rfl

/-- Every error dict returned by the auth stage is tagged step="auth". -/
theorem hotelAuth_err_tag (r : NetResult) (d : PyVal)
    (h : hotelAuth r = StageOut.err d) :
    stepOf d = Option.some (PyVal.str "auth") := by
  unfold hotelAuth at h
  repeat' split at h
  all_goals first
  | (injection h with h2; subst h2; rfl)
  | injection h

/-- Every error dict returned by the list stage is tagged step=1. -/
theorem hotelListStage_err_tag (r : NetResult) (maxHotels : Int) (d : PyVal)
    (h : hotelListStage r maxHotels = StageOut.err d) :
    stepOf d = Option.some (PyVal.int 1) := by
  unfold hotelListStage at h
  repeat' split at h
  all_goals first
  | (injection h with h2; subst h2; rfl)
  | injection h

/-- Every error dict returned by the offers stage is tagged step=2. -/
theorem hotelOffersStage_err_tag (r : NetResult) (d : PyVal)
    (h : hotelOffersStage r = StageOut.err d) :
    stepOf d = Option.some (PyVal.int 2) := by
  unfold hotelOffersStage at h
  repeat' split at h
  all_goals first
  | (injection h with h2; subst h2; rfl)
  | injection h

/-- C5: the three stages of the hotel client execute in order, each at
most once: the request trace is always the token POST, optionally
followed by the list GET, optionally followed by the offers GET; an auth
failure returns the step="auth" error dict with only the token POST
issued, a step-1 failure (including the empty-candidate-list case)
returns a step-1-tagged error with no offers request, and an offers
failure returns the step-2-tagged error after all three requests.  No
stage is ever retried and no later stage runs after a failure. -/
theorem C5_stage_discipline (env : Env) (net : Nat → NetResult) (a : HotelArgs) :
    (∃ token idsJoined,
        (search_amadeus_hotels env net a).2 = [hotelTokenReq env a]
      ∨ (search_amadeus_hotels env net a).2 = [hotelTokenReq env a, hotelListReq a token]
      ∨ (search_amadeus_hotels env net a).2 =
          [hotelTokenReq env a, hotelListReq a token, hotelOffersReq a token idsJoined])
    ∧ (∀ d, hotelAuth (net 0) = StageOut.err d →
        search_amadeus_hotels env net a = (Except.ok d, [hotelTokenReq env a])
        ∧ stepOf d = Option.some (PyVal.str "auth"))
    ∧ (∀ token d, hotelAuth (net 0) = StageOut.ok token →
        hotelListStage (net 1) a.max_hotels = StageOut.err d →
        search_amadeus_hotels env net a =
          (Except.ok d, [hotelTokenReq env a, hotelListReq a token])
        ∧ stepOf d = Option.some (PyVal.int 1))
    ∧ (∀ token, hotelAuth (net 0) = StageOut.ok token →
        hotelListStage (net 1) a.max_hotels = StageOut.ok [] →
        search_amadeus_hotels env net a =
          (Except.ok (noHotelsDict a.city_code), [hotelTokenReq env a, hotelListReq a token])
        ∧ stepOf (noHotelsDict a.city_code) = Option.some (PyVal.int 1))
    ∧ (∀ token ids idsJoined d, hotelAuth (net 0) = StageOut.ok token →
        hotelListStage (net 1) a.max_hotels = StageOut.ok ids → ids ≠ [] →
        pyJoin "," ids = Except.ok idsJoined →
        hotelOffersStage (net 2) = StageOut.err d →
        search_amadeus_hotels env net a =
          (Except.ok d,
           [hotelTokenReq env a, hotelListReq a token, hotelOffersReq a token idsJoined])
        ∧ stepOf d = Option.some (PyVal.int 2)) := by
  refine ⟨?_, ?_, ?_, ?_, ?_⟩
  · rcases h0 : hotelAuth (net 0) with token | d | e
    · rcases h1 : hotelListStage (net 1) a.max_hotels with ids | d | e
      · rcases ids with _ | ⟨x, xs⟩
        · exact ⟨token, "", Or.inr (Or.inl (by simp [search_amadeus_hotels, h0, h1]))⟩
        · rcases hj : pyJoin "," (x :: xs) with e | s
          · exact ⟨token, "",
              Or.inr (Or.inl (by simp [search_amadeus_hotels, h0, h1, hj]))⟩
          · rcases ho : hotelOffersStage (net 2) with payload | d | e
            · exact ⟨token, s,
                Or.inr (Or.inr (by simp [search_amadeus_hotels, h0, h1, hj, ho]))⟩
            · exact ⟨token, s,
                Or.inr (Or.inr (by simp [search_amadeus_hotels, h0, h1, hj, ho]))⟩
            · exact ⟨token, s,
                Or.inr (Or.inr (by simp [search_amadeus_hotels, h0, h1, hj, ho]))⟩
      · exact ⟨token, "", Or.inr (Or.inl (by simp [search_amadeus_hotels, h0, h1]))⟩
      · exact ⟨token, "", Or.inr (Or.inl (by simp [search_amadeus_hotels, h0, h1]))⟩
    · exact ⟨PyVal.none, "", Or.inl (by simp [search_amadeus_hotels, h0])⟩
    · exact ⟨PyVal.none, "", Or.inl (by simp [search_amadeus_hotels, h0])⟩
  · intro d hd
    refine ⟨?_, hotelAuth_err_tag (net 0) d hd⟩
    unfold search_amadeus_hotels
    rw [hd]
  · intro token d h0 h1
    refine ⟨?_, hotelListStage_err_tag (net 1) a.max_hotels d h1⟩
    unfold search_amadeus_hotels
    rw [h0, h1]
  · intro token h0 h1
    refine ⟨?_, rfl⟩
    unfold search_amadeus_hotels
    rw [h0, h1]
    rfl
  · intro token ids idsJoined d h0 h1 hne hj hoff
    refine ⟨?_, hotelOffersStage_err_tag (net 2) d hoff⟩
    rcases ids with _ | ⟨x, xs⟩
    · exact absurd rfl hne
    · simp [search_amadeus_hotels, h0, h1, hj, hoff]

end Amadeus
